import Mathlib

/-!
Verification development for the Telegram markdown-to-PDF bot (`src/bot.py`).

The per-user quota ledger, the session accumulator, the URL normalizer and the
conversion orchestrator are embedded shallowly: Python dict entries become
`Option`-valued fields, `datetime` timestamps become seconds since an epoch in
a fixed timezone (so `.date()` becomes integer division by 86400), and the
outcomes of external network calls (HTTP fetch, PDF backend, Telegram
delivery) become explicit parameters of the embedded functions.
-/

namespace Bot

/-! ### Configuration (defaults from `os.getenv` in bot.py) -/

def FREE_DAILY_QUOTA : Nat := 15
def HOURLY_RATE_LIMIT : Nat := 3

/-! ### Quota ledger

`user_quota[user_id]` is a dict with keys `daily_count`, `hourly_count`,
`last_reset`, `hourly_reset`, `is_premium`.  Timestamps are seconds; the
calendar date of a timestamp is its day index `t / 86400` (fixed timezone,
which is what a naive `datetime.now()` comparison gives). -/

structure QuotaRecord where
  daily_count : Nat
  hourly_count : Nat
  last_reset : Nat
  hourly_reset : Nat
  is_premium : Bool
deriving DecidableEq

def dateOf (t : Nat) : Nat := t / 86400

/-- `init_user_quota`: the fresh record created on first reference. -/
def init_user_quota (now : Nat) : QuotaRecord :=
  { daily_count := 0, hourly_count := 0, last_reset := now
    hourly_reset := now, is_premium := false }

/-- `reset_quota_if_needed`: daily reset when `now.date() > last_reset.date()`,
hourly reset when `now >= hourly_reset + timedelta(hours=1)`. -/
def reset_quota_if_needed (now : Nat) (q : QuotaRecord) : QuotaRecord :=
  let q1 := if dateOf q.last_reset < dateOf now then
      { q with daily_count := 0, last_reset := now } else q
  if q1.hourly_reset + 3600 ≤ now then
      { q1 with hourly_count := 0, hourly_reset := now } else q1

/-- Message of the hourly rate-limit rejection.  `wait_time` is
`hourly_reset + 1h - now`; in the branch where this message is produced the
hourly reset did not fire, so `now < hourly_reset + 3600` and the Python
`int(total_seconds / 60)` equals this Nat division. -/
def rate_limit_message (now : Nat) (hourly_reset : Nat) : String :=
  "Rate limit tercapai! Tunggu " ++ toString ((hourly_reset + 3600 - now) / 60)
    ++ " menit lagi. Upgrade ke Premium untuk unlimited access!"

/-- Message of the daily quota rejection. -/
def daily_quota_message : String :=
  "Quota harian habis (" ++ toString FREE_DAILY_QUOTA ++ "/"
    ++ toString FREE_DAILY_QUOTA ++ ")! Upgrade ke Premium untuk unlimited quota!"

/-- `check_quota`: returns the (lazily reset) record together with
`(can_proceed, message)`. -/
def check_quota (now : Nat) (q0 : QuotaRecord) : QuotaRecord × Bool × String :=
  let q := reset_quota_if_needed now q0
  if q.is_premium then (q, true, "")
  else if HOURLY_RATE_LIMIT ≤ q.hourly_count then
    (q, false, rate_limit_message now q.hourly_reset)
  else if FREE_DAILY_QUOTA ≤ q.daily_count then
    (q, false, daily_quota_message)
  else (q, true, "")

/-- `increment_quota`: adds one to both counters. -/
def increment_quota (q : QuotaRecord) : QuotaRecord :=
  { q with daily_count := q.daily_count + 1, hourly_count := q.hourly_count + 1 }

/-! ### String utilities

Python string primitives used by `convert_to_raw_url` and the handlers,
implemented by structural recursion on `List Char` so that concrete instances
evaluate inside the kernel. -/

/-- `a` is an initial segment of `l` (Python `str.startswith`). -/
def isPre (a : List Char) : List Char → Bool
  | [] => a.isEmpty
  | c :: cs =>
    match a with
    | [] => true
    | b :: bs => b == c && isPre bs cs

/-- Python `pat in s` (substring containment) for a nonempty pattern. -/
def containsL (pat : List Char) : List Char → Bool
  | [] => isPre pat []
  | c :: cs => isPre pat (c :: cs) || containsL pat cs

/-- One pass of Python `str.replace`: leftmost non-overlapping occurrences of
`pat` are replaced by `rep`; the replacement text is not rescanned.  The fuel
is an upper bound on the number of characters consumed, so `fuel = s.length`
gives exactly Python's semantics for a nonempty pattern. -/
def replaceFuel (pat rep : List Char) : Nat → List Char → List Char
  | _, [] => []
  | 0, s => s
  | fuel + 1, c :: cs =>
    if isPre pat (c :: cs) then
      rep ++ replaceFuel pat rep fuel (List.drop (pat.length - 1) cs)
    else
      c :: replaceFuel pat rep fuel cs

/-- Python `s.replace(pat, rep)` (all occurrences) for a nonempty `pat`. -/
def replaceS (s pat rep : String) : String :=
  ⟨replaceFuel pat.data rep.data s.data.length s.data⟩

def containsSub (s pat : String) : Bool := containsL pat.data s.data

def startsWithS (s p : String) : Bool := isPre p.data s.data

def endsWithS (s p : String) : Bool := isPre p.data.reverse s.data.reverse

/-- Python `s.rstrip('/')`. -/
def rstripSlash (s : String) : String :=
  ⟨(s.data.reverse.dropWhile (fun c => c == '/')).reverse⟩

/-- Python `path.split('/')` (separator-keeping split; empty pieces kept). -/
def splitSlash : List Char → List (List Char)
  | [] => [[]]
  | c :: cs =>
    let r := splitSlash cs
    if c == '/' then [] :: r
    else
      match r with
      | [] => [[c]]
      | h :: t => (c :: h) :: t

def splitSlashS (s : String) : List String := (splitSlash s.data).map String.mk

/-- `'/'.join(parts)`. -/
def joinSlash : List (List Char) → List Char
  | [] => []
  | [x] => x
  | x :: y :: t => x ++ '/' :: joinSlash (y :: t)

def joinSlashS (l : List String) : String := ⟨joinSlash (l.map String.data)⟩

/-- Python `list.index(x)` restricted to its guarded uses: first index of `x`,
or the length when absent (the source checks `/src/ in path` first, which
guarantees presence). -/
def idxOfStr (x : String) : List String → Nat
  | [] => 0
  | y :: ys => if x == y then 0 else idxOfStr x ys + 1

/-- ASCII lowering, as `str.lower()` acts on hostnames and filenames. -/
def lowerChar (c : Char) : Char :=
  if 'A' ≤ c ∧ c ≤ 'Z' then Char.ofNat (c.toNat + 32) else c

def lowerS (s : String) : String := ⟨s.data.map lowerChar⟩

/-! ### `urllib.parse.urlparse` (the subset bot.py uses)

Only `scheme`, `path` and `hostname` are consumed.  The model follows
CPython's `urlsplit` for URLs without IPv6 bracket hosts: the scheme is split
at the first `:` when the prefix is a letter followed by letters, digits,
`+`, `-` or `.`; a netloc is read after `//` up to the first `/`, `?` or `#`;
the path stops at the first `?` or `#`; the hostname is the netloc after the
last `@`, before the first `:`, lowercased. -/

def schemeChar (c : Char) : Bool :=
  c.isAlpha || c.isDigit || c == '+' || c == '-' || c == '.'

/-- Split a char list at the first `:`, if any. -/
def findColon : List Char → Option (List Char × List Char)
  | [] => none
  | c :: cs =>
    if c == ':' then some ([], cs)
    else
      match findColon cs with
      | some (a, b) => some (c :: a, b)
      | none => none

def splitSchemeL (l : List Char) : List Char × List Char :=
  match findColon l with
  | some (bef, aft) =>
    if bef ≠ [] ∧ (bef.headD 'x').isAlpha ∧ bef.all schemeChar then
      (bef.map lowerChar, aft)
    else ([], l)
  | none => ([], l)

def splitNetlocL : List Char → List Char × List Char
  | '/' :: '/' :: rest =>
    let nl := rest.takeWhile (fun c => !(c == '/') && !(c == '?') && !(c == '#'))
    (nl, rest.drop nl.length)
  | l => ([], l)

def pathPartL (l : List Char) : List Char :=
  l.takeWhile (fun c => !(c == '?') && !(c == '#'))

/-- Suffix after the last `@`, or the whole list when there is none. -/
def afterLastAt (l : List Char) : List Char :=
  l.foldl (fun acc c => if c == '@' then [] else acc ++ [c]) []

structure ParsedUrl where
  scheme : String
  netloc : String
  path : String
  hostname : String
deriving DecidableEq

def urlparse (url : String) : ParsedUrl :=
  let sr := splitSchemeL url.data
  let nr := splitNetlocL sr.2
  let host := ((afterLastAt nr.1).takeWhile (fun c => !(c == ':'))).map lowerChar
  { scheme := ⟨sr.1⟩, netloc := ⟨nr.1⟩, path := ⟨pathPartL nr.2⟩, hostname := ⟨host⟩ }

/-! ### `convert_to_raw_url` -/

/-- The URL normalizer of bot.py, rule for rule.  In the Bitbucket branch the
source's `src_index != -1` test is always true (Python `list.index` raises
instead of returning `-1`, and `'/src/' in path` guarantees a `src` part), so
only the `len(path_parts) > src_index + 1` test remains. -/
def convert_to_raw_url (url : String) : String :=
  let parsed := urlparse url
  if parsed.hostname = "github.com" ∧ containsSub parsed.path "/blob/" then
    replaceS (replaceS url "github.com" "raw.githubusercontent.com") "/blob/" "/"
  else if parsed.hostname = "gist.github.com" then
    rstripSlash url ++ "/raw"
  else if parsed.hostname = "gitlab.com" ∧ containsSub parsed.path "/blob/" then
    replaceS url "/blob/" "/raw/"
  else if parsed.hostname = "bitbucket.org" ∧ containsSub parsed.path "/src/" then
    let pparts := splitSlashS parsed.path
    if 4 < pparts.length then
      let si := idxOfStr "src" pparts
      if si + 1 < pparts.length then
        parsed.scheme ++ "://" ++ parsed.hostname ++ joinSlashS (pparts.set si "raw")
      else url
    else url
  else url

/-! ### Remote content fetcher

`requests.get(url, timeout=10)` followed by `raise_for_status()` is embedded
by passing the outcome of the network call as an explicit argument: a 2xx
response carries its body text, every other outcome is an exception class. -/

inductive FetchOutcome where
  | ok (body : String)
  | timeout
  | connError
  | httpStatus (code : Nat)
  | otherError
deriving DecidableEq

/-- `fetch_markdown_from_url`: returns the body text on 2xx; the single
`except Exception` clause turns every failure — timeout, connection error,
the `HTTPError` raised by `raise_for_status`, anything else — into `None`. -/
def fetch_markdown_from_url : FetchOutcome → Option String
  | .ok body => some body
  | _ => none

/-! ### Per-user state

One user's slices of the module-level dicts `user_states`, `user_markdown`,
`message_types` and `user_quota`; `none` means the key is absent. -/

structure UserState where
  state : Option String
  markdown : Option (List String)
  msg_type : Option String
  quota : Option QuotaRecord
deriving DecidableEq

/-! ### Session accumulator handlers -/

def isUrlText (t : String) : Bool :=
  startsWithS t "http://" || startsWithS t "https://"

def welcome_guide : String :=
  "Halo! Mari mulai konversi Markdown ke PDF. Ketik /start untuk memulai."

def url_success_message : String := "Berhasil mengambil konten dari URL!"

def url_failure_message : String :=
  "Gagal mengambil konten dari URL. Pastikan URL publik dan bisa diakses."

def text_saved_message : String := "Konten berhasil disimpan!"

/-- `handle_text`: the fetch outcome for the (normalized) URL is passed in as
`fr`.  The source tests the fetched value with `if markdown_content:`, so
`None` and the empty string take the same branch; `message_types[user_id]`
is set to `'url'` before that test, on failures too.  In the plain-text
branch the source creates `user_markdown[user_id]` when absent (`getD []`);
in the URL branch an entry always exists when the state is
`'waiting_input'` (established by `/start`). -/
def handle_text (st : UserState) (text : String) (fr : FetchOutcome) :
    UserState × String :=
  if st.state ≠ some "waiting_input" then (st, welcome_guide)
  else if isUrlText text then
    let content := fetch_markdown_from_url fr
    let st1 := { st with msg_type := some "url" }
    match content with
    | some c =>
      if c = "" then (st1, url_failure_message)
      else ({ st1 with markdown := some (st1.markdown.getD [] ++ [c]) },
            url_success_message)
    | none => (st1, url_failure_message)
  else
    ({ st with
        markdown := some ((st.markdown.getD []) ++ [text])
        msg_type := some "text" }, text_saved_message)

def doc_idle_message : String :=
  "Gunakan /start untuk memulai konversi Markdown ke PDF."

def unsupported_file_message : String := "Hanya file .md atau .txt yang didukung!"

def doc_ok_message : String := "File berhasil diproses!"

def doc_fail_message : String := "Gagal memproses file."

/-- `document.file_name.lower().endswith('.md') or ...endswith('.txt')`. -/
def extOk (name : String) : Bool :=
  endsWithS (lowerS name) ".md" || endsWithS (lowerS name) ".txt"

/-- `handle_document`: `download` is the decoded text of the downloaded file,
or `none` when the download/decode raised (the `except` branch appends
nothing and leaves `message_types` untouched). -/
def handle_document (st : UserState) (name : String) (download : Option String) :
    UserState × String :=
  if st.state ≠ some "waiting_input" then (st, doc_idle_message)
  else if ¬ extOk name = true then (st, unsupported_file_message)
  else
    match download with
    | some content =>
      ({ st with
          markdown := some ((st.markdown.getD []) ++ [content])
          msg_type := some "file" }, doc_ok_message)
    | none => (st, doc_fail_message)

/-! ### Submission events -/

inductive Event where
  | start (now : Nat)
  | cancel
  | text (t : String) (fr : FetchOutcome)
  | document (name : String) (download : Option String)
deriving DecidableEq

def isSubmission : Event → Bool
  | .text _ _ => true
  | .document _ _ => true
  | _ => false

/-- One inbound user event, as the dispatched handler processes it.
`/start` sets the state to `'waiting_input'`, clears the buffer and
initializes the quota record if absent; `/cancel` deletes the state and the
buffer. -/
def step (st : UserState) : Event → UserState
  | .start now =>
    { st with
        state := some "waiting_input"
        markdown := some []
        quota := some (st.quota.getD (init_user_quota now)) }
  | .cancel => { st with state := none, markdown := none }
  | .text t fr => (handle_text st t fr).1
  | .document n d => (handle_document st n d).1

def run (st : UserState) (es : List Event) : UserState := es.foldl step st

/-- The fragments one submission event contributes while the state is
`'waiting_input'`. -/
def acceptedOf : Event → List String
  | .text t fr =>
    if isUrlText t then
      match fetch_markdown_from_url fr with
      | some c => if c = "" then [] else [c]
      | none => []
    else [t]
  | .document n d =>
    if extOk n then
      match d with
      | some c => [c]
      | none => []
    else []
  | _ => []

/-! ### Conversion orchestrator (`convert_to_pdf`) -/

/-- Outcome of the external `requests.post` to the PDF service, as classified
by `convert_markdown_to_pdf_via_api`'s `except` clauses. -/
inductive BackendResult where
  | ok
  | timeout
  | connError
  | httpError (status : Nat)
  | otherError (msg : String)
deriving DecidableEq

/-- `convert_markdown_to_pdf_via_api`: `(success, error_message)`. -/
def convert_markdown_to_pdf_via_api : BackendResult → Bool × String
  | .ok => (true, "")
  | .timeout => (false, "Timeout: PDF service tidak merespon")
  | .connError => (false, "Connection Error: Tidak dapat terhubung ke PDF service")
  | .httpError s => (false, "HTTP Error: " ++ toString s)
  | .otherError m => (false, m)

/-- One row appended to the Excel log by `log_generation` (the user identity
columns and the timestamp are omitted; they do not bear on any claim). -/
structure UsageRecord where
  input_type : String
  input_length : Nat
  success : Bool
  error_message : String
  is_premium : Bool
deriving DecidableEq

inductive ConvertOutcome where
  | noSession
  | emptySession
  | quotaRejected
  | backendFailed
  | fatalError
  | delivered
deriving DecidableEq

structure ConvertResult where
  st : UserState
  outcome : ConvertOutcome
  reply : String
  increments : Nat
  records : List UsageRecord
  tempRemoved : Bool
deriving DecidableEq

def no_session_message : String :=
  "Tidak ada markdown untuk dikonversi. Gunakan /start untuk memulai."

def empty_session_message : String :=
  "Anda belum mengirim markdown apapun. Kirim teks/file markdown terlebih dahulu."

def backend_fail_reply (e : String) : String :=
  "Gagal konversi ke PDF: " ++ e ++ ". Silakan coba lagi dengan /start"

def fatal_reply (e : String) : String :=
  "Terjadi kesalahan: " ++ e ++ ". Gunakan /start untuk mencoba lagi."

def done_message : String := "Selesai! Gunakan /start untuk konversi lagi."

/-- `'\n\n'.join(fragments)`. -/
def joinFragments : List String → String
  | [] => ""
  | [s] => s
  | s :: t :: rest => s ++ "\n\n" ++ joinFragments (t :: rest)

/-- The `/convert` handler.  `backend` is the outcome of the PDF-service call
and `delivery` the outcome of sending the PDF back over Telegram (`none` =
sent, `some e` = `reply_document` raised with message `e` — the only await
between the backend call and `increment_quota` that can fail, i.e. the
uncaught-error path of the surrounding `try`).

Mutation order on success follows the source: `check_quota` applies the lazy
reset, `increment_quota` bumps both counters, `get_quota_status` runs
`reset_quota_if_needed` once more (a no-op at the same instant, proved
below), then `user_states[user_id]` and `user_markdown[user_id]` are
deleted.  `increments` counts calls to `increment_quota`; `records` are the
rows `log_generation` appends in the `finally` block; `tempRemoved` says a
temp PDF file was created and then deleted (no path leaves one behind).
Note the except branch logs with the `success` flag already set by the
backend call. -/
def convert_to_pdf (now : Nat) (st : UserState) (backend : BackendResult)
    (delivery : Option String) : ConvertResult :=
  if st.state = none ∨ st.markdown = none then
    ⟨st, .noSession, no_session_message, 0, [], false⟩
  else if st.markdown.getD [] = [] then
    ⟨st, .emptySession, empty_session_message, 0, [], false⟩
  else
    let qres := check_quota now (st.quota.getD (init_user_quota now))
    let st1 := { st with quota := some qres.1 }
    if ¬ qres.2.1 = true then
      ⟨st1, .quotaRejected, qres.2.2, 0, [], false⟩
    else
      let full := joinFragments (st.markdown.getD [])
      let api := convert_markdown_to_pdf_via_api backend
      if api.1 then
        match delivery with
        | none =>
          let q2 := reset_quota_if_needed now (increment_quota qres.1)
          ⟨{ st1 with state := none, markdown := none, quota := some q2 },
            .delivered, done_message, 1,
            [⟨st.msg_type.getD "unknown", full.length, true, "", q2.is_premium⟩],
            true⟩
        | some e =>
          ⟨st1, .fatalError, fatal_reply e, 0,
            [⟨st.msg_type.getD "unknown", full.length, true, e, qres.1.is_premium⟩],
            true⟩
      else
        ⟨st1, .backendFailed, backend_fail_reply api.2, 0,
          [⟨st.msg_type.getD "unknown", full.length, false, api.2, qres.1.is_premium⟩],
          true⟩

/-! ## Helper lemmas -/

/-- Right after `reset_quota_if_needed` ran at instant `now`, neither window
boundary is pending at that same instant. -/
lemma reset_no_pending (now : Nat) (q : QuotaRecord) :
    ¬ dateOf (reset_quota_if_needed now q).last_reset < dateOf now ∧
    ¬ (reset_quota_if_needed now q).hourly_reset + 3600 ≤ now := by
  unfold reset_quota_if_needed
  by_cases h1 : dateOf q.last_reset < dateOf now <;>
    by_cases h2 : q.hourly_reset + 3600 ≤ now <;>
      simp [h1, h2]

/-- When neither window boundary is pending, the lazy reset leaves an
incremented record untouched. -/
lemma reset_noop_of_no_pending (now : Nat) (r : QuotaRecord)
    (h1 : ¬ dateOf r.last_reset < dateOf now)
    (h2 : ¬ r.hourly_reset + 3600 ≤ now) :
    reset_quota_if_needed now (increment_quota r) = increment_quota r := by
  unfold reset_quota_if_needed increment_quota
  simp [h1, h2]

/-- The extra `reset_quota_if_needed` that `get_quota_status` performs right
after `increment_quota` at the same instant is a no-op. -/
lemma reset_after_increment (now : Nat) (q0 : QuotaRecord) :
    reset_quota_if_needed now (increment_quota (reset_quota_if_needed now q0))
      = increment_quota (reset_quota_if_needed now q0) :=
  reset_noop_of_no_pending now _ (reset_no_pending now q0).1
    (reset_no_pending now q0).2

/-- A URL whose parsed hostname matches none of GitHub, the GitHub gist
subdomain, GitLab or Bitbucket falls through every rule of
`convert_to_raw_url`. -/
lemma convert_unmatched (url : String)
    (h1 : (urlparse url).hostname ≠ "github.com")
    (h2 : (urlparse url).hostname ≠ "gist.github.com")
    (h3 : (urlparse url).hostname ≠ "gitlab.com")
    (h4 : (urlparse url).hostname ≠ "bitbucket.org") :
    convert_to_raw_url url = url := by
  unfold convert_to_raw_url
  simp [h1, h2, h3, h4]

/-! ## Claims -/

/-- C1: after the pending lazy window resets are applied, `check_quota`
returns `allowed = true` for a premium user regardless of counter values; a
non-premium user is rejected with the rate-limit message whenever
`hourly_count >= HOURLY_RATE_LIMIT` regardless of `daily_count` (the hourly
check precedes the daily one); otherwise rejected with the daily-limit
message whenever `daily_count >= FREE_DAILY_QUOTA`; otherwise allowed with
an empty reason. -/
theorem check_quota_cases (now : Nat) (q0 : QuotaRecord) :
    let q := reset_quota_if_needed now q0
    (q.is_premium = true → check_quota now q0 = (q, true, "")) ∧
    (q.is_premium = false → HOURLY_RATE_LIMIT ≤ q.hourly_count →
      check_quota now q0 = (q, false, rate_limit_message now q.hourly_reset)) ∧
    (q.is_premium = false → q.hourly_count < HOURLY_RATE_LIMIT →
      FREE_DAILY_QUOTA ≤ q.daily_count →
      check_quota now q0 = (q, false, daily_quota_message)) ∧
    (q.is_premium = false → q.hourly_count < HOURLY_RATE_LIMIT →
      q.daily_count < FREE_DAILY_QUOTA →
      check_quota now q0 = (q, true, "")) := by
  refine ⟨?_, ?_, ?_, ?_⟩
  · intro hp
    simp [check_quota, hp]
  · intro hp hh
    simp [check_quota, hp, hh]
  · intro hp hh hd
    simp [check_quota, hp, Nat.not_le.mpr hh, hd]
  · intro hp hh hd
    simp [check_quota, hp, Nat.not_le.mpr hh, Nat.not_le.mpr hd]

/-- Witness for C1: one concrete instance of each of the four cases — a
premium user with both counters far past the limits is allowed; a free user
with `hourly_count = HOURLY_RATE_LIMIT` and an empty daily counter is
rejected with the rate-limit message; a free user under the hourly limit but
at the daily quota is rejected with the daily message; a fresh free user is
allowed. -/
theorem check_quota_cases_witness :
    check_quota 0 ⟨99, 99, 0, 0, true⟩
      = (reset_quota_if_needed 0 ⟨99, 99, 0, 0, true⟩, true, "") ∧
    check_quota 1000 ⟨0, 3, 0, 0, false⟩
      = (reset_quota_if_needed 1000 ⟨0, 3, 0, 0, false⟩, false,
          rate_limit_message 1000 (reset_quota_if_needed 1000 ⟨0, 3, 0, 0, false⟩).hourly_reset) ∧
    check_quota 1000 ⟨15, 0, 0, 0, false⟩
      = (reset_quota_if_needed 1000 ⟨15, 0, 0, 0, false⟩, false, daily_quota_message) ∧
    check_quota 1000 ⟨0, 0, 0, 0, false⟩
      = (reset_quota_if_needed 1000 ⟨0, 0, 0, 0, false⟩, true, "") := by
  exact ⟨(check_quota_cases 0 ⟨99, 99, 0, 0, true⟩).1 (by decide),
    (check_quota_cases 1000 ⟨0, 3, 0, 0, false⟩).2.1 (by decide) (by decide),
    (check_quota_cases 1000 ⟨15, 0, 0, 0, false⟩).2.2.1 (by decide) (by decide) (by decide),
    (check_quota_cases 1000 ⟨0, 0, 0, 0, false⟩).2.2.2 (by decide) (by decide) (by decide)⟩

/-- C2: the lazy reset zeroes `daily_count` and moves the daily window start
to `now` exactly when the calendar date of `now` is strictly later than the
stored daily-window-start date, and zeroes `hourly_count` and moves the
hourly window start to `now` exactly when `now ≥ hourly_reset + 1 hour`;
otherwise each counter and window start is untouched.  The premium flag is
never changed. -/
theorem reset_quota_iff (now : Nat) (q : QuotaRecord) :
    let r := reset_quota_if_needed now q
    (dateOf q.last_reset < dateOf now → r.daily_count = 0 ∧ r.last_reset = now) ∧
    (¬ dateOf q.last_reset < dateOf now →
      r.daily_count = q.daily_count ∧ r.last_reset = q.last_reset) ∧
    (q.hourly_reset + 3600 ≤ now → r.hourly_count = 0 ∧ r.hourly_reset = now) ∧
    (¬ q.hourly_reset + 3600 ≤ now →
      r.hourly_count = q.hourly_count ∧ r.hourly_reset = q.hourly_reset) ∧
    r.is_premium = q.is_premium := by
  unfold reset_quota_if_needed
  by_cases h1 : dateOf q.last_reset < dateOf now <;>
    by_cases h2 : q.hourly_reset + 3600 ≤ now <;>
      simp [h1, h2]

/-- Witness for C2 at the window boundaries: one second before the hourly
boundary (`now = 3599`, window start 0) nothing is reset; exactly at the
boundary (`now = 3600`) the hourly counter is zeroed and the window start
moves; one second before midnight (`now = 86399`, both window starts inside
the same day) the daily counter survives; exactly at midnight
(`now = 86400`) it is zeroed. -/
theorem reset_quota_iff_witness :
    ((reset_quota_if_needed 3599 ⟨5, 2, 0, 0, false⟩).hourly_count = 2 ∧
     (reset_quota_if_needed 3599 ⟨5, 2, 0, 0, false⟩).hourly_reset = 0) ∧
    ((reset_quota_if_needed 3600 ⟨5, 2, 0, 0, false⟩).hourly_count = 0 ∧
     (reset_quota_if_needed 3600 ⟨5, 2, 0, 0, false⟩).hourly_reset = 3600) ∧
    ((reset_quota_if_needed 86399 ⟨5, 2, 43200, 86398, false⟩).daily_count = 5 ∧
     (reset_quota_if_needed 86399 ⟨5, 2, 43200, 86398, false⟩).last_reset = 43200) ∧
    ((reset_quota_if_needed 86400 ⟨5, 2, 86300, 86398, false⟩).daily_count = 0 ∧
     (reset_quota_if_needed 86400 ⟨5, 2, 86300, 86398, false⟩).last_reset = 86400) := by
  exact ⟨(reset_quota_iff 3599 ⟨5, 2, 0, 0, false⟩).2.2.2.1 (by decide),
    (reset_quota_iff 3600 ⟨5, 2, 0, 0, false⟩).2.2.1 (by decide),
    (reset_quota_iff 86399 ⟨5, 2, 43200, 86398, false⟩).2.1 (by decide),
    (reset_quota_iff 86400 ⟨5, 2, 86300, 86398, false⟩).1 (by decide)⟩

/-- C3: `increment_quota` adds exactly one to both counters, and on a
`/convert` attempt it is invoked exactly once when the conversion is
delivered and zero times on every other outcome — missing or empty session,
quota rejection, backend failure, or an uncaught error while sending the
result — so failed attempts never consume quota. -/
theorem increment_once_iff_delivered (now : Nat) (st : UserState)
    (backend : BackendResult) (delivery : Option String) :
    ((convert_to_pdf now st backend delivery).increments =
      if (convert_to_pdf now st backend delivery).outcome = ConvertOutcome.delivered
      then 1 else 0) ∧
    ∀ q : QuotaRecord, increment_quota q =
      { q with daily_count := q.daily_count + 1, hourly_count := q.hourly_count + 1 } := by
  refine ⟨?_, fun q => rfl⟩
  simp only [convert_to_pdf]
  repeat' split
  all_goals first
  | rfl
  | simp_all

/-- A submission event processed in the `'waiting_input'` state keeps the
state, keeps the quota record, and appends exactly the accepted fragments of
that event to the buffer. -/
lemma step_submission_waiting (l : List String) (mt : Option String)
    (q : Option QuotaRecord) (e : Event) (he : isSubmission e = true) :
    ∃ mt', step ⟨some "waiting_input", some l, mt, q⟩ e
      = ⟨some "waiting_input", some (l ++ acceptedOf e), mt', q⟩ := by
  cases e with
  | start now => simp [isSubmission] at he
  | cancel => simp [isSubmission] at he
  | text t fr =>
    by_cases hu : isUrlText t
    · refine ⟨some "url", ?_⟩
      cases fr with
      | ok body =>
        by_cases hb : body = "" <;>
          simp [step, handle_text, acceptedOf, fetch_markdown_from_url, hu, hb]
      | timeout =>
        simp [step, handle_text, acceptedOf, fetch_markdown_from_url, hu]
      | connError =>
        simp [step, handle_text, acceptedOf, fetch_markdown_from_url, hu]
      | httpStatus c =>
        simp [step, handle_text, acceptedOf, fetch_markdown_from_url, hu]
      | otherError =>
        simp [step, handle_text, acceptedOf, fetch_markdown_from_url, hu]
    · exact ⟨some "text", by simp [step, handle_text, acceptedOf, hu]⟩
  | document n d =>
    by_cases hx : extOk n
    · cases d with
      | some c => exact ⟨some "file", by simp [step, handle_document, acceptedOf, hx]⟩
      | none => exact ⟨mt, by simp [step, handle_document, acceptedOf, hx]⟩
    · exact ⟨mt, by simp [step, handle_document, acceptedOf, hx]⟩

/-- C4: a fragment is appended to the buffer only while the session state is
`'waiting_input'` — a submission arriving in any other state leaves the
user's entry entirely unchanged — and running any sequence of submission
events from the `'waiting_input'` state appends exactly the accepted
fragments of those events, in arrival order, with no reordering or
deduplication. -/
theorem fragments_append_only_awaiting :
    (∀ (st : UserState) (e : Event), isSubmission e = true →
      st.state ≠ some "waiting_input" → step st e = st) ∧
    (∀ (l : List String) (mt : Option String) (q : Option QuotaRecord)
        (es : List Event), (∀ e ∈ es, isSubmission e = true) →
      run ⟨some "waiting_input", some l, mt, q⟩ es
        = ⟨some "waiting_input", some (l ++ (es.map acceptedOf).flatten),
            (run ⟨some "waiting_input", some l, mt, q⟩ es).msg_type, q⟩) := by
  constructor
  · intro st e he hs
    cases e with
    | start now => simp [isSubmission] at he
    | cancel => simp [isSubmission] at he
    | text t fr => simp [step, handle_text, hs]
    | document n d => simp [step, handle_document, hs]
  · intro l mt q es
    induction es generalizing l mt q with
    | nil => intro _; simp [run]
    | cons e es ih =>
      intro hall
      obtain ⟨mt', hstep⟩ :=
        step_submission_waiting l mt q e (hall e (List.mem_cons_self e es))
      have hrun : run ⟨some "waiting_input", some l, mt, q⟩ (e :: es)
          = run ⟨some "waiting_input", some (l ++ acceptedOf e), mt', q⟩ es := by
        simp [run, hstep]
      rw [hrun, ih (l ++ acceptedOf e) mt' q (fun x hx => hall x (List.mem_cons_of_mem e hx))]
      simp [hrun]

/-- Witness for C4: a submission in the idle state changes nothing, and a
five-event sequence — plain text, a successfully fetched URL, a `.md`
upload, a rejected `.pdf` upload, a URL whose fetch times out — appends
exactly the three accepted fragments in arrival order. -/
theorem fragments_append_only_awaiting_witness :
    step ⟨none, none, none, none⟩ (Event.text "hi" FetchOutcome.otherError)
      = ⟨none, none, none, none⟩ ∧
    (run ⟨some "waiting_input", some ["a"], none, none⟩
        [Event.text "b" FetchOutcome.otherError,
         Event.text "https://x.io/c.md" (FetchOutcome.ok "c"),
         Event.document "d.md" (some "d"),
         Event.document "e.pdf" (some "e"),
         Event.text "https://y.io/f.md" FetchOutcome.timeout]).markdown
      = some ["a", "b", "c", "d"] := by
  constructor
  · exact fragments_append_only_awaiting.1 _ _ (by decide) (by decide)
  · rw [fragments_append_only_awaiting.2 ["a"] none none _ (by decide)]
    decide

/-- C5 counterexample: `convert_to_raw_url` is not idempotent on the raw
URLs it produces for gists.  The gist rule strips a trailing slash and
unconditionally appends `/raw`, so the normalizer's own output
`https://gist.github.com/u/abcd/raw` is mapped to
`https://gist.github.com/u/abcd/raw/raw`, refuting
`normalize (normalize u) = normalize u` at `u = https://gist.github.com/u/abcd/`. -/
theorem normalize_gist_not_idempotent :
    convert_to_raw_url (convert_to_raw_url "https://gist.github.com/u/abcd/")
        = "https://gist.github.com/u/abcd/raw/raw" ∧
    convert_to_raw_url (convert_to_raw_url "https://gist.github.com/u/abcd/")
        ≠ convert_to_raw_url "https://gist.github.com/u/abcd/" := by
  decide

/-- C5 (amended): the normalizer is a pure function (hence deterministic),
the four example mappings of the spec hold exactly, already-raw URLs whose
host matches none of the four rewrite rules — in particular the raw GitHub
and GitLab outputs of rules 1 and 3 — are returned unchanged, but gist-host
URLs are never fixed points: the gist rule appends `/raw` unconditionally,
so idempotence fails exactly on the gist host. -/
theorem normalize_examples_and_identity :
    (convert_to_raw_url "https://github.com/u/r/blob/main/f.md"
        = "https://raw.githubusercontent.com/u/r/main/f.md") ∧
    (convert_to_raw_url "https://gist.github.com/u/abcd/"
        = "https://gist.github.com/u/abcd/raw") ∧
    (convert_to_raw_url "https://gitlab.com/u/r/blob/main/f.md"
        = "https://gitlab.com/u/r/raw/main/f.md") ∧
    (convert_to_raw_url "https://example.com/docs/readme.md"
        = "https://example.com/docs/readme.md") ∧
    (convert_to_raw_url "https://raw.githubusercontent.com/u/r/main/f.md"
        = "https://raw.githubusercontent.com/u/r/main/f.md") ∧
    (convert_to_raw_url "https://gitlab.com/u/r/raw/main/f.md"
        = "https://gitlab.com/u/r/raw/main/f.md") ∧
    (∀ url : String, (urlparse url).hostname ≠ "github.com" →
      (urlparse url).hostname ≠ "gist.github.com" →
      (urlparse url).hostname ≠ "gitlab.com" →
      (urlparse url).hostname ≠ "bitbucket.org" →
      convert_to_raw_url url = url) ∧
    (∀ url : String, (urlparse url).hostname = "gist.github.com" →
      convert_to_raw_url url = rstripSlash url ++ "/raw") := by
  refine ⟨by decide, by decide, by decide, by decide, by decide, by decide,
    fun url h1 h2 h3 h4 => convert_unmatched url h1 h2 h3 h4, ?_⟩
  intro url hg
  unfold convert_to_raw_url
  simp [hg]

/-- Witness for C5 (amended): the identity conjunct at a URL with an
unmatched host and the gist conjunct at a gist URL. -/
theorem normalize_examples_and_identity_witness :
    convert_to_raw_url "https://docs.example.org/a/b.md"
        = "https://docs.example.org/a/b.md" ∧
    convert_to_raw_url "https://gist.github.com/x/y"
        = rstripSlash "https://gist.github.com/x/y" ++ "/raw" := by
  exact ⟨normalize_examples_and_identity.2.2.2.2.2.2.1
      "https://docs.example.org/a/b.md" (by decide) (by decide) (by decide) (by decide),
    normalize_examples_and_identity.2.2.2.2.2.2.2 "https://gist.github.com/x/y" (by decide)⟩

/-- C6 counterexample: rule 1 does not leave the rest of the URL intact.
The source rewrites with `url.replace('github.com',
'raw.githubusercontent.com').replace('/blob/', '/')`, which replaces every
occurrence of those substrings anywhere in the URL: a path component
containing `github.com` is rewritten too, instead of only the host. -/
theorem rule_one_rewrites_whole_url :
    convert_to_raw_url "https://github.com/u/r/blob/main/github.com.md"
        = "https://raw.githubusercontent.com/u/r/main/raw.githubusercontent.com.md" ∧
    convert_to_raw_url "https://github.com/u/r/blob/main/github.com.md"
        ≠ "https://raw.githubusercontent.com/u/r/main/github.com.md" := by
  decide

/-- C6 (amended): the rules are tried in order with first match winning and
unmatched URLs returned unchanged; under rule 1 every occurrence of the
substring `github.com` is replaced by `raw.githubusercontent.com` and every
occurrence of `/blob/` by `/` (for a URL in which those substrings occur
only as the host and one path segment this coincides with substituting the
host and dropping the blob segment); under rule 4 the first `src` segment
becomes `raw` only when `path.split('/')` has more than 4 pieces (the
leading empty piece included), and when that count precondition fails the
URL is returned unchanged. -/
theorem raw_url_rule_properties :
    (∀ url : String, (urlparse url).hostname = "github.com" →
      containsSub (urlparse url).path "/blob/" = true →
      convert_to_raw_url url
        = replaceS (replaceS url "github.com" "raw.githubusercontent.com") "/blob/" "/") ∧
    (∀ url : String, (urlparse url).hostname = "bitbucket.org" →
      containsSub (urlparse url).path "/src/" = true →
      (splitSlashS (urlparse url).path).length ≤ 4 →
      convert_to_raw_url url = url) ∧
    (convert_to_raw_url "https://github.com/u/r/blob/a/blob/b.md"
        = "https://raw.githubusercontent.com/u/r/a/b.md") ∧
    (convert_to_raw_url "https://bitbucket.org/w/r/src/branch/f.md"
        = "https://bitbucket.org/w/r/raw/branch/f.md") ∧
    (convert_to_raw_url "https://bitbucket.org/w/src/x"
        = "https://bitbucket.org/w/src/x") ∧
    (∀ url : String, (urlparse url).hostname ≠ "github.com" →
      (urlparse url).hostname ≠ "gist.github.com" →
      (urlparse url).hostname ≠ "gitlab.com" →
      (urlparse url).hostname ≠ "bitbucket.org" →
      convert_to_raw_url url = url) := by
  refine ⟨?_, ?_, by decide, by decide, by decide,
    fun url h1 h2 h3 h4 => convert_unmatched url h1 h2 h3 h4⟩
  · intro url hh hb
    unfold convert_to_raw_url
    simp [hh, hb]
  · intro url hh hs hlen
    unfold convert_to_raw_url
    simp [hh, hs, Nat.not_lt.mpr hlen]

/-- Witness for C6 (amended): rule 1 applied at a github blob URL, rule 4's
fallthrough at a bitbucket URL with too few path pieces, and the identity
conjunct at an unmatched host. -/
theorem raw_url_rule_properties_witness :
    convert_to_raw_url "https://github.com/a/b/blob/m/c.md"
        = replaceS (replaceS "https://github.com/a/b/blob/m/c.md"
            "github.com" "raw.githubusercontent.com") "/blob/" "/" ∧
    convert_to_raw_url "https://bitbucket.org/a/src/b"
        = "https://bitbucket.org/a/src/b" ∧
    convert_to_raw_url "http://mirror.example.net/repo/f.md"
        = "http://mirror.example.net/repo/f.md" := by
  exact ⟨raw_url_rule_properties.1 "https://github.com/a/b/blob/m/c.md" (by decide) (by decide),
    raw_url_rule_properties.2.1 "https://bitbucket.org/a/src/b" (by decide) (by decide) (by decide),
    raw_url_rule_properties.2.2.2.2.2 "http://mirror.example.net/repo/f.md"
      (by decide) (by decide) (by decide) (by decide)⟩

/-- C7 counterexample: fetch failures are not classified into distinct
user-facing explanations.  `fetch_markdown_from_url` has a single
`except Exception` clause returning `None`, so a timeout, a connection
failure and a non-2xx HTTP status all lead the URL handler to the same
generic failure message — the handler results for a timeout and for a
connection failure are identical, and the 404 case shows the same text. -/
theorem fetch_failure_not_classified :
    (handle_text ⟨some "waiting_input", some [], none, none⟩
        "https://x.io/a.md" FetchOutcome.timeout
      = handle_text ⟨some "waiting_input", some [], none, none⟩
        "https://x.io/a.md" FetchOutcome.connError) ∧
    (handle_text ⟨some "waiting_input", some [], none, none⟩
        "https://x.io/a.md" FetchOutcome.timeout).2 = url_failure_message ∧
    (handle_text ⟨some "waiting_input", some [], none, none⟩
        "https://x.io/a.md" (FetchOutcome.httpStatus 404)).2 = url_failure_message ∧
    fetch_markdown_from_url FetchOutcome.timeout
      = fetch_markdown_from_url FetchOutcome.connError := by
  decide

/-- C7 (amended): every fetch failure — timeout, connection failure, non-2xx
HTTP status, other transport error — is collapsed by the single `except`
clause of `fetch_markdown_from_url` into `None`, and the URL handler then
shows one uniform failure explanation; no fragment is appended and the
session state is unchanged (only the last-input-type marker is set to
`'url'`). -/
theorem fetch_failure_uniform (st : UserState) (u : String) (f : FetchOutcome)
    (hw : st.state = some "waiting_input") (hu : isUrlText u = true)
    (hf : fetch_markdown_from_url f = none) :
    handle_text st u f = ({ st with msg_type := some "url" }, url_failure_message) := by
  unfold handle_text
  simp [hw, hu, hf]

/-- Witness for C7 (amended) at a concrete awaiting-content session and a
connection failure. -/
theorem fetch_failure_uniform_witness :
    handle_text ⟨some "waiting_input", some ["x"], none, none⟩
        "https://x.io/a.md" FetchOutcome.connError
      = (⟨some "waiting_input", some ["x"], some "url", none⟩, url_failure_message) := by
  exact fetch_failure_uniform ⟨some "waiting_input", some ["x"], none, none⟩
    "https://x.io/a.md" FetchOutcome.connError rfl (by decide) rfl

/-- The byte length of the UTF-8 encoding of a string, as
`len(s.encode('utf-8'))` would compute it (the spec's "byte length"). -/
def utf8Len (s : String) : Nat :=
  s.data.foldl (fun n c =>
    n + (if c.toNat ≤ 0x7F then 1 else if c.toNat ≤ 0x7FF then 2
         else if c.toNat ≤ 0xFFFF then 3 else 4)) 0

/-- C8 counterexample: the logged `input_length` is `len(full_markdown)` —
the number of characters (code points) of the joined document — not its
byte length.  For the single fragment `"é"` the successful conversion logs
`input_length = 1` while the UTF-8 byte length of the joined document
is 2. -/
theorem input_length_counts_chars_not_bytes :
    (convert_to_pdf 0
        ⟨some "waiting_input", some ["é"], some "text", some (init_user_quota 0)⟩
        BackendResult.ok none).records
      = [⟨"text", 1, true, "", false⟩] ∧
    utf8Len (joinFragments ["é"]) = 2 := by
  decide

/-- C8 (amended): for a user with an active `'waiting_input'` session
holding at least one fragment and with quota available, a successful
`/convert` emits exactly one usage record with `success = true` whose
`input_length` equals the number of characters (code points, Python
`len`) of the fragments joined in submission order by a blank-line
separator, and the session is reset — the state and fragment buffer
entries are removed. -/
theorem convert_success_scenario (now : Nat) (l : List String) (mt : String)
    (q : Option QuotaRecord) (hl : l ≠ [])
    (hallow : (check_quota now (q.getD (init_user_quota now))).2.1 = true) :
    let r := convert_to_pdf now ⟨some "waiting_input", some l, some mt, q⟩
      BackendResult.ok none
    r.outcome = ConvertOutcome.delivered ∧
    r.records = [⟨mt, (joinFragments l).length, true, "",
      (reset_quota_if_needed now (increment_quota
        (check_quota now (q.getD (init_user_quota now))).1)).is_premium⟩] ∧
    r.st.state = none ∧ r.st.markdown = none ∧ r.increments = 1 := by
  simp only [convert_to_pdf]
  simp [hl, hallow, convert_markdown_to_pdf_via_api]

/-- Witness for C8 (amended): two fragments `"# A"` and `"B"` joined by a
blank line give the 6-character document `"# A\n\nB"`; the one record
logged on success carries `input_length = 6`. -/
theorem convert_success_scenario_witness :
    (convert_to_pdf 0
        ⟨some "waiting_input", some ["# A", "B"], some "text", some (init_user_quota 0)⟩
        BackendResult.ok none).records
      = [⟨"text", 6, true, "", false⟩] ∧
    (convert_to_pdf 0
        ⟨some "waiting_input", some ["# A", "B"], some "text", some (init_user_quota 0)⟩
        BackendResult.ok none).st.state = none := by
  have h := convert_success_scenario 0 ["# A", "B"] "text"
    (some (init_user_quota 0)) (by decide) (by decide)
  refine ⟨?_, h.2.2.1⟩
  rw [h.2.1]
  decide

/-- C9 counterexample: on an uncaught error during conversion the session
and quota state are NOT cleaned up.  With a session in `'waiting_input'`
holding one fragment, a successful backend call and an exception while
sending the PDF, the handler's `except` branch only reports the error: the
state entry is still `'waiting_input'`, the fragment buffer is intact, and
no quota was consumed — only the temp PDF file is removed. -/
theorem fatal_error_session_not_cleaned :
    (convert_to_pdf 0
        ⟨some "waiting_input", some ["abc"], some "text", some (init_user_quota 0)⟩
        BackendResult.ok (some "boom")).outcome = ConvertOutcome.fatalError ∧
    (convert_to_pdf 0
        ⟨some "waiting_input", some ["abc"], some "text", some (init_user_quota 0)⟩
        BackendResult.ok (some "boom")).st.state = some "waiting_input" ∧
    (convert_to_pdf 0
        ⟨some "waiting_input", some ["abc"], some "text", some (init_user_quota 0)⟩
        BackendResult.ok (some "boom")).st.markdown = some ["abc"] ∧
    (convert_to_pdf 0
        ⟨some "waiting_input", some ["abc"], some "text", some (init_user_quota 0)⟩
        BackendResult.ok (some "boom")).tempRemoved = true := by
  decide

/-- C9 (amended): on an uncaught error during a conversion attempt a
generic error message carrying the exception text is reported, exactly one
usage record is still logged in the `finally` block, no quota increment
happens, and the temp PDF file is released — but the session is NOT cleaned
up: the state, fragment buffer and input-type marker are left exactly as
they were, and the quota record is touched only by the lazy reset inside
`check_quota` (the session is left dangling until the user issues `/start`
or `/cancel`). -/
theorem fatal_error_behavior (now : Nat) (st : UserState) (e : String)
    (hs : ¬ st.state = none) (hm : ¬ st.markdown = none)
    (hne : ¬ st.markdown.getD [] = [])
    (hallow : (check_quota now (st.quota.getD (init_user_quota now))).2.1 = true) :
    let r := convert_to_pdf now st BackendResult.ok (some e)
    r.outcome = ConvertOutcome.fatalError ∧
    r.st.state = st.state ∧ r.st.markdown = st.markdown ∧
    r.st.msg_type = st.msg_type ∧
    r.st.quota = some (check_quota now (st.quota.getD (init_user_quota now))).1 ∧
    r.increments = 0 ∧ r.tempRemoved = true ∧ r.reply = fatal_reply e ∧
    r.records.length = 1 := by
  simp only [convert_to_pdf]
  simp [hs, hm, hne, hallow, convert_markdown_to_pdf_via_api]

/-- Witness for C9 (amended) at a concrete session with one fragment and a
fresh quota record. -/
theorem fatal_error_behavior_witness :
    (convert_to_pdf 5
        ⟨some "waiting_input", some ["x"], some "text", some (init_user_quota 5)⟩
        BackendResult.ok (some "socket closed")).st.markdown = some ["x"] ∧
    (convert_to_pdf 5
        ⟨some "waiting_input", some ["x"], some "text", some (init_user_quota 5)⟩
        BackendResult.ok (some "socket closed")).reply
      = fatal_reply "socket closed" := by
  have h := fatal_error_behavior 5
    ⟨some "waiting_input", some ["x"], some "text", some (init_user_quota 5)⟩
    "socket closed" (by decide) (by decide) (by decide) (by decide)
  exact ⟨h.2.2.1, h.2.2.2.2.2.2.2.1⟩

/-- C10: a URL submission whose HTTP GET succeeds with an empty body is
treated exactly like a fetch failure.  `fetch_markdown_from_url` returns
the empty body, but the handler tests it with `if markdown_content:`, under
which the empty string and the `None` of a failed fetch are
indistinguishable — the handler result for an empty 2xx body is literally
equal to the one for a timeout: no fragment is appended, the failure
explanation is shown, the session state is unchanged. -/
theorem empty_body_like_failure (st : UserState) (u : String)
    (hw : st.state = some "waiting_input") (hu : isUrlText u = true) :
    handle_text st u (FetchOutcome.ok "") = handle_text st u FetchOutcome.timeout ∧
    (handle_text st u (FetchOutcome.ok "")).1.markdown = st.markdown ∧
    (handle_text st u (FetchOutcome.ok "")).1.state = st.state ∧
    (handle_text st u (FetchOutcome.ok "")).2 = url_failure_message := by
  unfold handle_text fetch_markdown_from_url
  simp [hw, hu]

/-- Witness for C10 at a concrete awaiting-content session. -/
theorem empty_body_like_failure_witness :
    handle_text ⟨some "waiting_input", some ["k"], none, none⟩
        "https://x.io/empty.md" (FetchOutcome.ok "")
      = handle_text ⟨some "waiting_input", some ["k"], none, none⟩
        "https://x.io/empty.md" FetchOutcome.timeout ∧
    (handle_text ⟨some "waiting_input", some ["k"], none, none⟩
        "https://x.io/empty.md" (FetchOutcome.ok "")).1.markdown = some ["k"] := by
  have h := empty_body_like_failure ⟨some "waiting_input", some ["k"], none, none⟩
    "https://x.io/empty.md" rfl (by decide)
  exact ⟨h.1, h.2.1⟩

end Bot
